import Mathlib

/-!
Verification of the frame hand-off and GPU-texture lifetime-tracking core of
the Qt5 QtQuick video item (ext/qt/qtitem.cc).

Shallow embedding conventions:
* A GstBuffer is identified by its pointer identity, modelled as a natural
  number.  Reference counting is modelled by reporting, for every operation,
  the list of buffers whose reference the component gives up (the buffers it
  calls gst_buffer_unref on).
* GstCaps are modelled as already-parsed fixed raw-video caps: width, height
  and pixel-aspect-ratio fraction.  gst_caps_is_equal_fixed is structural
  equality of this record.
* gint arithmetic is modelled on Int (no overflow: the values reached by the
  claims are far below 2^31, and the glib overflow checks are not modelled).
* gdouble arithmetic in the geometry code is modelled exactly on Rat; the
  implicit C conversions from double back to gint truncate toward zero
  (ratTrunc).
* The single mutex (priv->lock) serialises every operation, so the state
  machine below is the sequential semantics of the locked regions.
-/

/-- A GstBuffer, identified by pointer identity. -/
abbrev GstBuffer := Nat

/-- A GstElement handle (the sink stored through the weak reference). -/
abbrev GstElement := Nat

/-- An opaque GL object handle (GstGLContext / GstGLDisplay). -/
abbrev GLHandle := Nat

/-- Fixed raw-video caps: the fields of qtitem.cc that a caps negotiation
reads.  Models a GstCaps that gst_video_info_from_caps accepts. -/
structure GstCaps where
  width : Int
  height : Int
  par_n : Int
  par_d : Int
  deriving DecidableEq, Repr

/-- The GstVideoInfo fields used by qtitem.cc: dimensions and pixel aspect
fraction. -/
structure GstVideoInfo where
  width : Int
  height : Int
  par_n : Int
  par_d : Int
  deriving DecidableEq, Repr

/-- Model of gst_video_info_from_caps restricted to the caps record above:
the caps type only represents well-formed fixed raw-video caps, for which
parsing succeeds and copies the fields. -/
def gst_video_info_from_caps (caps : GstCaps) : Option GstVideoInfo :=
  some ⟨caps.width, caps.height, caps.par_n, caps.par_d⟩

/-- The state guarded by priv->lock in struct _QtGLVideoItemPrivate
(qtitem.cc lines 60-91).  force_aspect (the force-aspect-ratio property) is
the C field force_aspect_ratio. -/
structure QtGLVideoItemPrivate where
  force_aspect : Bool
  par_n : Int
  par_d : Int
  display_width : Int
  display_height : Int
  negotiated : Bool
  buffer : Option GstBuffer
  caps : Option GstCaps
  v_info : GstVideoInfo
  initted : Bool
  sink : Option GstElement
  other_context : Option GLHandle
  context : Option GLHandle
  display : Option GLHandle
  bound_buffers : List GstBuffer
  potentially_unbound_buffers : List GstBuffer
  deriving DecidableEq, Repr

/-- The private state right after the QtGLVideoItem constructor (qtitem.cc
lines 114-147): g_new0 zero-fill, then the property defaults
DEFAULT_FORCE_ASPECT_RATIO / DEFAULT_PAR_N / DEFAULT_PAR_D, and the display
obtained from gst_qt_get_gl_display. -/
def initialState : QtGLVideoItemPrivate where
  force_aspect := true
  par_n := 0
  par_d := 1
  display_width := 0
  display_height := 0
  negotiated := false
  buffer := none
  caps := none
  v_info := ⟨0, 0, 0, 0⟩
  initted := false
  sink := none
  other_context := none
  context := none
  display := some 0
  bound_buffers := []
  potentially_unbound_buffers := []

/-! ## TextureBindingTracker: the exchange step of updatePaintNode -/

/-- Result of one exchange step: the updated private state plus the list of
buffers unreffed during the step. -/
structure ExchangeOut where
  priv : QtGLVideoItemPrivate
  released : List GstBuffer
  deriving DecidableEq, Repr

/-- The texture-exchange step of QtGLVideoItem::updatePaintNode (qtitem.cc
lines 259-288): old_buffer and was_bound are what tex->getBuffer returned,
p.buffer is the current frame.  If the outgoing buffer equals the current
one, or was never bound, only that single reference is dropped; otherwise
the potentially-unbound queue is drained and released, the bound queue
moves to potentially-unbound, and the outgoing buffer becomes the sole
bound buffer. -/
def exchangeBuffer (p : QtGLVideoItemPrivate) (old_buffer : Option GstBuffer)
    (was_bound : Bool) : ExchangeOut :=
  match old_buffer with
  | none => ⟨p, []⟩
  | some ob =>
    if some ob = p.buffer then
      ⟨p, [ob]⟩
    else if !was_bound then
      ⟨p, [ob]⟩
    else
      ⟨{ p with potentially_unbound_buffers := p.bound_buffers,
                bound_buffers := [ob] },
        p.potentially_unbound_buffers⟩

/-! ## FrameSlot: setBuffer -/

/-- Which branch of QtGLVideoItemInterface::setBuffer was taken. -/
inductive DeliverOutcome where
  | detached
  | notNegotiated
  | delivered
  deriving DecidableEq, Repr

/-- Result of a setBuffer call: interface state afterwards, buffers
unreffed, and the branch taken. -/
structure SetBufferOut where
  state : Option QtGLVideoItemPrivate
  released : List GstBuffer
  outcome : DeliverOutcome
  deriving DecidableEq, Repr

/-- QtGLVideoItemInterface::setBuffer (qtitem.cc lines 511-533).  The
interface state is none once invalidateRef has nulled qt_item.  A buffer
arriving before negotiation is dropped.  Otherwise gst_buffer_replace swaps
the slot: it unrefs the old buffer unless it is the same pointer. -/
def setBuffer (itf : Option QtGLVideoItemPrivate) (buffer : GstBuffer) :
    SetBufferOut :=
  match itf with
  | none => ⟨none, [], .detached⟩
  | some p =>
    if p.negotiated then
      if p.buffer = some buffer then
        ⟨some p, [], .delivered⟩
      else
        ⟨some { p with buffer := some buffer }, p.buffer.toList, .delivered⟩
    else
      ⟨some p, [], .notNegotiated⟩

/-- Iterated successful delivery: fold setBuffer over a list of frames,
keeping the state (the getD default is never used on a negotiated state). -/
def deliverList (p : QtGLVideoItemPrivate) (fs : List GstBuffer) :
    QtGLVideoItemPrivate :=
  fs.foldl (fun q f => ((setBuffer (some q) f).state).getD q) p

/-! ## StreamGeometryState: _calculate_par and setCaps -/

/-- Model of gst_video_calculate_display_ratio from gst-libs (called by
_calculate_par): the display aspect fraction
(w * par_n * dpar_d) / (h * par_d * dpar_n) in lowest terms, failing when
the fraction is degenerate (nonpositive numerator or denominator).  The
G_MAXINT overflow checks of the C helper are not modelled. -/
def gst_video_calculate_display_dar (w h par_n par_d dpar_n dpar_d : Int) :
    Option (Int × Int) :=
  let num := w * par_n * dpar_d
  let den := h * par_d * dpar_n
  if num ≤ 0 ∨ den ≤ 0 then none
  else
    let g : Int := Int.gcd num den
    some (num / g, den / g)

/-- The display-ratio computation at the head of _calculate_par (qtitem.cc
lines 647-667): a zero stream par numerator is replaced by 1, and the
configured par override is used only when both of its parts are nonzero. -/
def calcDisplayRatioOf (p : QtGLVideoItemPrivate) (info : GstVideoInfo) :
    Option (Int × Int) :=
  let par_n := if info.par_n = 0 then 1 else info.par_n
  let dpar := if p.par_n ≠ 0 ∧ p.par_d ≠ 0 then (p.par_n, p.par_d)
              else ((1 : Int), (1 : Int))
  gst_video_calculate_display_dar info.width info.height par_n info.par_d
    dpar.1 dpar.2

/-- The static helper _calculate_par (qtitem.cc lines 638-700): on success
it stores the chosen display_width and display_height; the
gst_util_uint64_scale_int calls are val * num / den (all operands positive
on these paths). -/
def _calculate_par (p : QtGLVideoItemPrivate) (info : GstVideoInfo) :
    Option QtGLVideoItemPrivate :=
  match calcDisplayRatioOf p info with
  | none => none
  | some (num, den) =>
    if info.height % den = 0 then
      some { p with display_width := info.height * num / den,
                    display_height := info.height }
    else if info.width % num = 0 then
      some { p with display_width := info.width,
                    display_height := info.width * den / num }
    else
      some { p with display_width := info.height * num / den,
                    display_height := info.height }

/-- The static helper _reset (qtitem.cc lines 477-497): clears the current
buffer and caps, drops the negotiated and initted flags, and drains both
tracker queues. -/
def _reset (p : QtGLVideoItemPrivate) : QtGLVideoItemPrivate :=
  { p with buffer := none, caps := none, negotiated := false,
           initted := false, potentially_unbound_buffers := [],
           bound_buffers := [] }

/-- QtGLVideoItemInterface::setCaps (qtitem.cc lines 702-737).  The
g_return_val_if_fail guards (caps non-null and fixed) are satisfied by
construction of the caps record.  Note the order in the source: _reset and
the caps replacement happen before _calculate_par, so an aspect-ratio
failure leaves the already-reset state with the new caps installed. -/
def setCaps (itf : Option QtGLVideoItemPrivate) (caps : GstCaps) :
    Option QtGLVideoItemPrivate × Bool :=
  match itf with
  | none => (none, false)
  | some p =>
    if p.caps = some caps then
      (some p, true)
    else
      match gst_video_info_from_caps caps with
      | none => (some p, false)
      | some vi =>
        let p1 := { _reset p with caps := some caps }
        match _calculate_par p1 vi with
        | none => (some p1, false)
        | some p2 => (some { p2 with v_info := vi, negotiated := true }, true)

/-! ## LifecycleGuard: the interface entry points -/

/-- QtGLVideoItemInterface::invalidateRef (qtitem.cc lines 808-813): nulls
qt_item under the interface lock. -/
def invalidateRef (_ : Option QtGLVideoItemPrivate) :
    Option QtGLVideoItemPrivate :=
  none

/-- QtGLVideoItemInterface::setSink (qtitem.cc lines 499-509): stores the
sink through the weak reference (weak-reference decay is not modelled). -/
def setSink (itf : Option QtGLVideoItemPrivate) (sink : GstElement) :
    Option QtGLVideoItemPrivate :=
  match itf with
  | none => none
  | some p => some { p with sink := some sink }

/-- QtGLVideoItemInterface::getQtContext (qtitem.cc lines 739-748). -/
def getQtContext (itf : Option QtGLVideoItemPrivate) : Option GLHandle :=
  match itf with
  | none => none
  | some p => p.other_context

/-- QtGLVideoItemInterface::getContext (qtitem.cc lines 750-759). -/
def getContext (itf : Option QtGLVideoItemPrivate) : Option GLHandle :=
  match itf with
  | none => none
  | some p => p.context

/-- QtGLVideoItemInterface::getDisplay (qtitem.cc lines 761-770). -/
def getDisplay (itf : Option QtGLVideoItemPrivate) : Option GLHandle :=
  match itf with
  | none => none
  | some p => p.display

/-! ## Geometry: fitStreamToAllocatedSize and mapPointToStreamSize -/

/-- A GstVideoRectangle: four gint fields. -/
structure GstVideoRectangle where
  x : Int
  y : Int
  w : Int
  h : Int
  deriving DecidableEq, Repr

/-- C double-to-gint conversion: truncation toward zero. -/
def ratTrunc (q : ℚ) : Int :=
  q.num.tdiv q.den

/-- Model of gst_video_sink_center_rect from gst-libs (called with
scaling=TRUE by this item): letterboxes src into dst preserving the src
aspect fraction.  The two g_return_if_fail guards on zero heights leave the
caller-provided rectangle unwritten in C; that unwritten value is modelled
as the zero rectangle. -/
def gst_video_sink_center_rect (src dst : GstVideoRectangle)
    (scaling : Bool) : GstVideoRectangle :=
  if !scaling then
    let w := min src.w dst.w
    let h := min src.h dst.h
    ⟨dst.x + (dst.w - w) / 2, dst.y + (dst.h - h) / 2, w, h⟩
  else if src.h = 0 ∨ dst.h = 0 then
    ⟨0, 0, 0, 0⟩
  else
    let srcFrac : ℚ := (src.w : ℚ) / (src.h : ℚ)
    let dstFrac : ℚ := (dst.w : ℚ) / (dst.h : ℚ)
    if srcFrac > dstFrac then
      let rh : Int := ratTrunc ((dst.w : ℚ) / srcFrac)
      ⟨dst.x, dst.y + (dst.h - rh) / 2, dst.w, rh⟩
    else if srcFrac < dstFrac then
      let rw : Int := ratTrunc ((dst.h : ℚ) * srcFrac)
      ⟨dst.x + (dst.w - rw) / 2, dst.y, rw, dst.h⟩
    else
      ⟨dst.x, dst.y, dst.w, dst.h⟩

/-- QtGLVideoItem::fitStreamToAllocatedSize (qtitem.cc lines 318-342):
width and height are the current item size (the C qreal-to-gint conversion
is applied by the caller of this model, which passes integers). -/
def fitStreamToAllocatedSize (p : QtGLVideoItemPrivate)
    (width height : Int) : GstVideoRectangle :=
  if p.force_aspect then
    gst_video_sink_center_rect ⟨0, 0, p.display_width, p.display_height⟩
      ⟨0, 0, width, height⟩ true
  else
    ⟨0, 0, width, height⟩

/-- The glib CLAMP macro: x > high gives high, else x < low gives low,
else x. -/
def gclamp (v low high : ℚ) : ℚ :=
  if v > high then high else if v < low then low else v

/-- The coordinate transform of QtGLVideoItem::mapPointToStreamSize for a
given destination rectangle (qtitem.cc lines 360-375): guarded inverse map
into stream coordinates, then clamping to the stream size. -/
def mapWithRect (r : GstVideoRectangle) (streamW streamH : Int)
    (pos : ℚ × ℚ) : ℚ × ℚ :=
  let sx : ℚ := if 0 < r.w then (pos.1 - (r.x : ℚ)) / (r.w : ℚ) * (streamW : ℚ)
                else 0
  let sy : ℚ := if 0 < r.h then (pos.2 - (r.y : ℚ)) / (r.h : ℚ) * (streamH : ℚ)
                else 0
  (gclamp sx 0 (streamW : ℚ), gclamp sy 0 (streamH : ℚ))

/-- QtGLVideoItem::mapPointToStreamSize (qtitem.cc lines 344-378): fits the
stream into the allocated size, then transforms the point; the stream size
is read from priv->v_info. -/
def mapPointToStreamSize (p : QtGLVideoItemPrivate) (width height : Int)
    (pos : ℚ × ℚ) : ℚ × ℚ :=
  mapWithRect (fitStreamToAllocatedSize p width height)
    p.v_info.width p.v_info.height pos

/-! ## Concrete states used by the witnesses -/

/-- A 320x240 square-pixel caps record. -/
def exampleGoodCaps : GstCaps := ⟨320, 240, 1, 1⟩

/-- Caps whose zero width makes the display-ratio computation degenerate. -/
def exampleBadCaps : GstCaps := ⟨0, 240, 1, 1⟩

/-- A state after a successful 320x240 negotiation, holding a current frame
and one frame in each tracker queue. -/
def negotiatedPriv : QtGLVideoItemPrivate :=
  { initialState with
    negotiated := true
    caps := some exampleGoodCaps
    v_info := ⟨320, 240, 1, 1⟩
    buffer := some 7
    bound_buffers := [5]
    potentially_unbound_buffers := [4]
    display_width := 320
    display_height := 240 }

/-- A state after a successful 1920x1080 square-pixel negotiation. -/
def geomPriv : QtGLVideoItemPrivate :=
  { initialState with
    negotiated := true
    caps := some ⟨1920, 1080, 1, 1⟩
    v_info := ⟨1920, 1080, 1, 1⟩
    display_width := 1920
    display_height := 1080 }

/-! ## Helper lemmas -/

/-- A bound, non-current outgoing buffer takes the queue-rotating branch of
the exchange. -/
lemma exchange_bound_step (p : QtGLVideoItemPrivate) (f : GstBuffer)
    (h : p.buffer ≠ some f) :
    exchangeBuffer p (some f) true =
      ⟨{ p with potentially_unbound_buffers := p.bound_buffers,
                bound_buffers := [f] },
        p.potentially_unbound_buffers⟩ := by
  have h2 : ¬ (some f = p.buffer) := fun hh => h hh.symm
  simp [exchangeBuffer, h2]

/-- On a negotiated state, setBuffer always ends with the delivered frame in
the slot. -/
lemma setBuffer_state_of_negotiated (p : QtGLVideoItemPrivate) (f : GstBuffer)
    (h : p.negotiated = true) :
    (setBuffer (some p) f).state = some { p with buffer := some f } := by
  by_cases hb : p.buffer = some f
  · have hpe : { p with buffer := some f } = p := by
      cases p
      simp_all
    rw [hpe]
    simp [setBuffer, h, hb]
  · simp [setBuffer, h, hb]

/-- Delivering a list of frames preserves the negotiated flag. -/
lemma deliverList_negotiated (fs : List GstBuffer) :
    ∀ p : QtGLVideoItemPrivate, p.negotiated = true →
      (deliverList p fs).negotiated = true := by
  induction fs with
  | nil => intro p h; exact h
  | cons f fs ih =>
    intro p h
    have hs := setBuffer_state_of_negotiated p f h
    show (deliverList (((setBuffer (some p) f).state).getD p) fs).negotiated = true
    rw [hs]
    exact ih _ h

/-- After delivering a sequence ending in f, the slot holds f. -/
lemma deliverList_append_last (p : QtGLVideoItemPrivate) (fs : List GstBuffer)
    (f : GstBuffer) (h : p.negotiated = true) :
    (deliverList p (fs ++ [f])).buffer = some f := by
  have hq : (deliverList p fs).negotiated = true := deliverList_negotiated fs p h
  have hsplit : deliverList p (fs ++ [f]) =
      ((setBuffer (some (deliverList p fs)) f).state).getD (deliverList p fs) := by
    rw [deliverList, deliverList, List.foldl_append]
    rfl
  rw [hsplit, setBuffer_state_of_negotiated _ _ hq]
  rfl

/-! ## C3: deliver before negotiation -/

/-- C3: every setBuffer call before a successful negotiation takes the
NotNegotiated branch: the frame is dropped, no reference is released, the
state is untouched, and the current-frame slot stays empty. -/
theorem setBuffer_before_negotiation (p : QtGLVideoItemPrivate) (f : GstBuffer)
    (hneg : p.negotiated = false) (hbuf : p.buffer = none) :
    (setBuffer (some p) f).outcome = DeliverOutcome.notNegotiated ∧
    (setBuffer (some p) f).state = some p ∧
    (setBuffer (some p) f).released = [] ∧
    ((setBuffer (some p) f).state).bind (fun q => q.buffer) = none := by
  simp [setBuffer, hneg, hbuf]

/-- Witness for C3 at the constructor state. -/
theorem setBuffer_before_negotiation_witness :
    initialState.negotiated = false ∧ initialState.buffer = none ∧
    ((setBuffer (some initialState) 3).outcome = DeliverOutcome.notNegotiated ∧
     (setBuffer (some initialState) 3).state = some initialState ∧
     (setBuffer (some initialState) 3).released = [] ∧
     ((setBuffer (some initialState) 3).state).bind (fun q => q.buffer) = none) :=
  ⟨rfl, rfl, setBuffer_before_negotiation initialState 3 rfl rfl⟩

/-! ## C5: no-op branches of the exchange -/

/-- C5: when the outgoing frame equals the current frame, or was never
bound, the exchange releases exactly that one reference and changes
nothing: the whole private state, both queues included, is returned
unchanged. -/
theorem exchange_noop_branches (p : QtGLVideoItemPrivate) (f : GstBuffer)
    (wb : Bool) (h : p.buffer = some f ∨ wb = false) :
    exchangeBuffer p (some f) wb = ⟨p, [f]⟩ := by
  rcases h with h | h
  · simp [exchangeBuffer, h]
  · subst h
    by_cases hb : some f = p.buffer
    · simp [exchangeBuffer, hb]
    · simp [exchangeBuffer, hb]

/-- Witness for C5 on the duplicate-frame branch. -/
theorem exchange_noop_branches_witness :
    (negotiatedPriv.buffer = some 7 ∨ true = false) ∧
    exchangeBuffer negotiatedPriv (some 7) true = ⟨negotiatedPriv, [7]⟩ :=
  ⟨Or.inl rfl, exchange_noop_branches negotiatedPriv 7 true (Or.inl rfl)⟩

/-! ## C7: single-slot semantics of the frame slot -/

/-- C7: after any successful delivery sequence ending in f, current() is
exactly f; and every single successful delivery of a frame different from
the held one stores the new frame and releases precisely the slot
reference to the previously held frame. -/
theorem frameslot_single_slot (p : QtGLVideoItemPrivate) (fs : List GstBuffer)
    (f : GstBuffer) (h : p.negotiated = true) :
    (deliverList p (fs ++ [f])).buffer = some f ∧
    ∀ (q : QtGLVideoItemPrivate) (g : GstBuffer), q.negotiated = true →
      q.buffer ≠ some g →
      (setBuffer (some q) g).state = some { q with buffer := some g } ∧
      (setBuffer (some q) g).released = q.buffer.toList := by
  refine ⟨deliverList_append_last p fs f h, ?_⟩
  intro q g hq hne
  refine ⟨setBuffer_state_of_negotiated q g hq, ?_⟩
  simp [setBuffer, hq, hne]

/-- Witness for C7: delivering 1, 2, 3 leaves 3 in the slot. -/
theorem frameslot_single_slot_witness :
    negotiatedPriv.negotiated = true ∧
    ((deliverList negotiatedPriv ([1, 2] ++ [3])).buffer = some 3 ∧
     ∀ (q : QtGLVideoItemPrivate) (g : GstBuffer), q.negotiated = true →
       q.buffer ≠ some g →
       (setBuffer (some q) g).state = some { q with buffer := some g } ∧
       (setBuffer (some q) g).released = q.buffer.toList) :=
  ⟨rfl, frameslot_single_slot negotiatedPriv [1, 2] 3 rfl⟩

/-! ## C8: all producer-facing calls after invalidate are no-ops -/

/-- C8: after invalidateRef the interface reference is gone, and every
producer-facing entry point is a no-op: setBuffer drops the frame without
touching anything, setCaps returns false, setSink does nothing, and the
three context and display queries return none. -/
theorem detached_calls_noop (itf : Option QtGLVideoItemPrivate)
    (f : GstBuffer) (c : GstCaps) (e : GstElement) :
    invalidateRef itf = none ∧
    setBuffer (invalidateRef itf) f = ⟨none, [], DeliverOutcome.detached⟩ ∧
    setCaps (invalidateRef itf) c = (none, false) ∧
    setSink (invalidateRef itf) e = none ∧
    getQtContext (invalidateRef itf) = none ∧
    getContext (invalidateRef itf) = none ∧
    getDisplay (invalidateRef itf) = none :=
  ⟨rfl, rfl, rfl, rfl, rfl, rfl, rfl⟩

/-! ## C9: renegotiating with identical caps is a pure no-op -/

/-- C9: a setCaps call whose caps equal the caps already stored returns
true immediately and leaves the entire state, frame, queues and geometry
included, unchanged. -/
theorem setCaps_equal_caps_noop (p : QtGLVideoItemPrivate) (c : GstCaps)
    (hc : p.caps = some c) :
    setCaps (some p) c = (some p, true) := by
  simp [setCaps, hc]

/-- Witness for C9 at the negotiated 320x240 state. -/
theorem setCaps_equal_caps_noop_witness :
    negotiatedPriv.caps = some exampleGoodCaps ∧
    setCaps (some negotiatedPriv) exampleGoodCaps = (some negotiatedPriv, true) :=
  ⟨rfl, setCaps_equal_caps_noop negotiatedPriv exampleGoodCaps rfl⟩

/-! ## C1: two-generation-lag release of the tracker -/

/-- Three consecutive paints whose exchanges receive the previously bound
frames F1, F2, F3, with the current frame being b1, b2, b3 respectively at
each paint. -/
def threeExchanges (s : QtGLVideoItemPrivate) (F1 F2 F3 : GstBuffer)
    (b1 b2 b3 : Option GstBuffer) :
    ExchangeOut × ExchangeOut × ExchangeOut :=
  let r1 := exchangeBuffer { s with buffer := b1 } (some F1) true
  let r2 := exchangeBuffer { r1.priv with buffer := b2 } (some F2) true
  let r3 := exchangeBuffer { r2.priv with buffer := b3 } (some F3) true
  (r1, r2, r3)

/-- C1: starting from any state not already holding F1 in its queues, three
consecutive exchanges binding the distinct frames F1, F2, F3 (each time
with is_bound = true and a current frame different from the outgoing one)
keep F1 alive through the first and second exchange, park it in the
potentially-unbound queue after the second, and release it exactly at the
third, after which F2 is the sole potentially-unbound frame and F3 the
sole bound frame. -/
theorem tracker_two_generation_lag (s : QtGLVideoItemPrivate)
    (F1 F2 F3 : GstBuffer) (b1 b2 b3 : Option GstBuffer)
    (h12 : F1 ≠ F2) (h13 : F1 ≠ F3) (h23 : F2 ≠ F3)
    (hs1 : F1 ∉ s.bound_buffers) (hs2 : F1 ∉ s.potentially_unbound_buffers)
    (hb1 : b1 ≠ some F1) (hb2 : b2 ≠ some F2) (hb3 : b3 ≠ some F3) :
    F1 ∉ (threeExchanges s F1 F2 F3 b1 b2 b3).1.released ∧
    F1 ∉ (threeExchanges s F1 F2 F3 b1 b2 b3).2.1.released ∧
    F1 ∈ (threeExchanges s F1 F2 F3 b1 b2 b3).2.1.priv.potentially_unbound_buffers ∧
    (threeExchanges s F1 F2 F3 b1 b2 b3).2.2.released = [F1] ∧
    (threeExchanges s F1 F2 F3 b1 b2 b3).2.2.priv.potentially_unbound_buffers = [F2] ∧
    (threeExchanges s F1 F2 F3 b1 b2 b3).2.2.priv.bound_buffers = [F3] ∧
    F1 ∉ (threeExchanges s F1 F2 F3 b1 b2 b3).2.2.priv.bound_buffers ∧
    F1 ∉ (threeExchanges s F1 F2 F3 b1 b2 b3).2.2.priv.potentially_unbound_buffers := by
  have h1 : ¬ (some F1 = b1) := fun h => hb1 h.symm
  have h2 : ¬ (some F2 = b2) := fun h => hb2 h.symm
  have h3 : ¬ (some F3 = b3) := fun h => hb3 h.symm
  simp only [threeExchanges, exchangeBuffer]
  simp [h1, h2, h3, hs1, hs2, h12, h13]

/-- Witness for C1: fresh frames 1, 2, 3 against the constructor state. -/
theorem tracker_two_generation_lag_witness :
    ((1 : GstBuffer) ≠ 2 ∧ (1 : GstBuffer) ≠ 3 ∧ (2 : GstBuffer) ≠ 3 ∧
     1 ∉ initialState.bound_buffers ∧
     1 ∉ initialState.potentially_unbound_buffers ∧
     (some 2 : Option GstBuffer) ≠ some 1 ∧
     (some 3 : Option GstBuffer) ≠ some 2 ∧
     (some 4 : Option GstBuffer) ≠ some 3) ∧
    ((1 : GstBuffer) ∉
        (threeExchanges initialState 1 2 3 (some 2) (some 3) (some 4)).1.released ∧
     1 ∉ (threeExchanges initialState 1 2 3 (some 2) (some 3) (some 4)).2.1.released ∧
     1 ∈ (threeExchanges initialState 1 2 3 (some 2) (some 3) (some 4)).2.1.priv.potentially_unbound_buffers ∧
     (threeExchanges initialState 1 2 3 (some 2) (some 3) (some 4)).2.2.released = [1] ∧
     (threeExchanges initialState 1 2 3 (some 2) (some 3) (some 4)).2.2.priv.potentially_unbound_buffers = [2] ∧
     (threeExchanges initialState 1 2 3 (some 2) (some 3) (some 4)).2.2.priv.bound_buffers = [3] ∧
     1 ∉ (threeExchanges initialState 1 2 3 (some 2) (some 3) (some 4)).2.2.priv.bound_buffers ∧
     1 ∉ (threeExchanges initialState 1 2 3 (some 2) (some 3) (some 4)).2.2.priv.potentially_unbound_buffers) :=
  ⟨⟨by decide, by decide, by decide, by decide, by decide, by decide, by decide,
    by decide⟩,
   tracker_two_generation_lag initialState 1 2 3 (some 2) (some 3) (some 4)
     (by decide) (by decide) (by decide) (by decide) (by decide) (by decide)
     (by decide) (by decide)⟩

/-! ## C2: a failed renegotiation is not atomic -/

/-- Counterexample to C2 as stated: renegotiating the 320x240 state with
degenerate zero-width caps makes the aspect-ratio computation fail and
setCaps return false, yet the previous state is not retained: the current
frame slot has been cleared, both tracker queues drained, and the caps
replaced by the new caps. -/
theorem setCaps_ratio_failure_not_atomic :
    (setCaps (some negotiatedPriv) exampleBadCaps).2 = false ∧
    calcDisplayRatioOf { _reset negotiatedPriv with caps := some exampleBadCaps }
      ⟨0, 240, 1, 1⟩ = none ∧
    (setCaps (some negotiatedPriv) exampleBadCaps).1 =
      some { _reset negotiatedPriv with caps := some exampleBadCaps } ∧
    negotiatedPriv.buffer = some 7 ∧
    ({ _reset negotiatedPriv with caps := some exampleBadCaps }).buffer = none ∧
    negotiatedPriv.bound_buffers = [5] ∧
    ({ _reset negotiatedPriv with caps := some exampleBadCaps }).bound_buffers = [] ∧
    negotiatedPriv.potentially_unbound_buffers = [4] ∧
    ({ _reset negotiatedPriv with caps := some exampleBadCaps }).potentially_unbound_buffers = [] ∧
    negotiatedPriv.caps = some exampleGoodCaps ∧
    ({ _reset negotiatedPriv with caps := some exampleBadCaps }).caps = some exampleBadCaps := by
  decide

/-- C2 amended: when setCaps fails because the display-ratio computation is
degenerate, it returns false with the state already reset: the current
frame cleared, both tracker queues drained, negotiated false, and the new
caps installed in place of the previous ones. -/
theorem setCaps_ratio_failure_resets (p : QtGLVideoItemPrivate) (c : GstCaps)
    (hne : p.caps ≠ some c)
    (hfail : _calculate_par { _reset p with caps := some c }
      (⟨c.width, c.height, c.par_n, c.par_d⟩ : GstVideoInfo) = none) :
    setCaps (some p) c = (some { _reset p with caps := some c }, false) ∧
    ({ _reset p with caps := some c }).buffer = none ∧
    ({ _reset p with caps := some c }).negotiated = false ∧
    ({ _reset p with caps := some c }).bound_buffers = [] ∧
    ({ _reset p with caps := some c }).potentially_unbound_buffers = [] := by
  refine ⟨?_, rfl, rfl, rfl, rfl⟩
  simp [setCaps, gst_video_info_from_caps, hne, hfail]

/-- Witness for the amended C2 at the concrete counterexample input. -/
theorem setCaps_ratio_failure_resets_witness :
    negotiatedPriv.caps ≠ some exampleBadCaps ∧
    _calculate_par { _reset negotiatedPriv with caps := some exampleBadCaps }
      (⟨0, 240, 1, 1⟩ : GstVideoInfo) = none ∧
    setCaps (some negotiatedPriv) exampleBadCaps =
      (some { _reset negotiatedPriv with caps := some exampleBadCaps }, false) :=
  ⟨by decide, by decide,
   (setCaps_ratio_failure_resets negotiatedPriv exampleBadCaps (by decide)
     (by decide)).1⟩

/-! ## C4: display-size selection in _calculate_par -/

/-- The display-size selection as the claim states it: keep the source
height when it divides evenly by the ratio denominator, else keep the
source width when it divides evenly by the ratio numerator, else the
height-preserving approximation. -/
def claimDisplaySize (w h num den : Int) : Int × Int :=
  if h % den = 0 then (h * num / den, h)
  else if w % num = 0 then (w, w * den / num)
  else (h * num / den, h)

/-- C4: whenever the display-ratio computation of _calculate_par yields
num/den, _calculate_par succeeds and stores exactly the display size the
claim describes. -/
theorem calculate_par_display_selection (p : QtGLVideoItemPrivate)
    (info : GstVideoInfo) (num den : Int)
    (hr : calcDisplayRatioOf p info = some (num, den)) :
    _calculate_par p info =
      some { p with
             display_width := (claimDisplaySize info.width info.height num den).1,
             display_height := (claimDisplaySize info.width info.height num den).2 } := by
  rw [_calculate_par, hr, claimDisplaySize]
  by_cases h1 : info.height % den = 0
  · simp [h1]
  · by_cases h2 : info.width % num = 0
    · simp [h1, h2]
    · simp [h1, h2]

/-- Witness for C4: 1920x1080 square pixels gives ratio 16/9 and display
size 1920x1080. -/
theorem calculate_par_display_selection_witness :
    calcDisplayRatioOf initialState ⟨1920, 1080, 1, 1⟩ = some (16, 9) ∧
    _calculate_par initialState ⟨1920, 1080, 1, 1⟩ =
      some { initialState with
             display_width := (claimDisplaySize 1920 1080 16 9).1,
             display_height := (claimDisplaySize 1920 1080 16 9).2 } :=
  ⟨by decide,
   calculate_par_display_selection initialState ⟨1920, 1080, 1, 1⟩ 16 9
     (by decide)⟩

/-! ## Geometry lemmas for C6 and C10 -/

/-- Clamping zero between zero and a nonnegative bound gives zero. -/
lemma gclamp_zero (hi : ℚ) (h : 0 ≤ hi) : gclamp 0 0 hi = 0 := by
  unfold gclamp
  rw [if_neg (not_lt.mpr h), if_neg (lt_irrefl 0)]

/-- Clamping the bound itself gives the bound. -/
lemma gclamp_top (hi : ℚ) (h : 0 ≤ hi) : gclamp hi 0 hi = hi := by
  unfold gclamp
  rw [if_neg (lt_irrefl hi), if_neg (not_lt.mpr h)]

/-- A clamped value lies between zero and the nonnegative bound. -/
lemma gclamp_mem (v hi : ℚ) (h : 0 ≤ hi) :
    0 ≤ gclamp v 0 hi ∧ gclamp v 0 hi ≤ hi := by
  unfold gclamp
  split_ifs with h1 h2
  · exact ⟨h, le_refl hi⟩
  · exact ⟨le_refl 0, h⟩
  · exact ⟨not_lt.mp h2, not_lt.mp h1⟩

/-- The inverse map sends the four corners of a positive rectangle to the
four corners of the stream rectangle. -/
lemma mapWithRect_corner_vals (r : GstVideoRectangle) (sw sh : Int)
    (hw : 0 < r.w) (hh : 0 < r.h) (hsw : 0 ≤ sw) (hsh : 0 ≤ sh) :
    mapWithRect r sw sh ((r.x : ℚ), (r.y : ℚ)) = (0, 0) ∧
    mapWithRect r sw sh ((r.x : ℚ) + (r.w : ℚ), (r.y : ℚ)) = ((sw : ℚ), 0) ∧
    mapWithRect r sw sh ((r.x : ℚ), (r.y : ℚ) + (r.h : ℚ)) = (0, (sh : ℚ)) ∧
    mapWithRect r sw sh ((r.x : ℚ) + (r.w : ℚ), (r.y : ℚ) + (r.h : ℚ)) =
      ((sw : ℚ), (sh : ℚ)) := by
  have hwne : (r.w : ℚ) ≠ 0 := by
    exact_mod_cast hw.ne'
  have hhne : (r.h : ℚ) ≠ 0 := by
    exact_mod_cast hh.ne'
  have hswq : (0 : ℚ) ≤ (sw : ℚ) := by exact_mod_cast hsw
  have hshq : (0 : ℚ) ≤ (sh : ℚ) := by exact_mod_cast hsh
  have ex0 : ((r.x : ℚ) - (r.x : ℚ)) / (r.w : ℚ) * (sw : ℚ) = 0 := by
    rw [sub_self, zero_div, zero_mul]
  have ex1 : ((r.x : ℚ) + (r.w : ℚ) - (r.x : ℚ)) / (r.w : ℚ) * (sw : ℚ) =
      (sw : ℚ) := by
    rw [add_sub_cancel_left, div_self hwne, one_mul]
  have ey0 : ((r.y : ℚ) - (r.y : ℚ)) / (r.h : ℚ) * (sh : ℚ) = 0 := by
    rw [sub_self, zero_div, zero_mul]
  have ey1 : ((r.y : ℚ) + (r.h : ℚ) - (r.y : ℚ)) / (r.h : ℚ) * (sh : ℚ) =
      (sh : ℚ) := by
    rw [add_sub_cancel_left, div_self hhne, one_mul]
  refine ⟨?_, ?_, ?_, ?_⟩ <;>
    simp only [mapWithRect, if_pos hw, if_pos hh]
  · rw [ex0, ey0, gclamp_zero _ hswq, gclamp_zero _ hshq]
  · rw [ex1, ey0, gclamp_top _ hswq, gclamp_zero _ hshq]
  · rw [ex0, ey1, gclamp_zero _ hswq, gclamp_top _ hshq]
  · rw [ex1, ey1, gclamp_top _ hswq, gclamp_top _ hshq]

/-- Totality and range of the inverse map for an arbitrary rectangle. -/
lemma mapWithRect_bounds (r : GstVideoRectangle) (sw sh : Int) (pos : ℚ × ℚ)
    (hsw : 0 ≤ sw) (hsh : 0 ≤ sh) :
    (r.w ≤ 0 → (mapWithRect r sw sh pos).1 = 0) ∧
    (r.h ≤ 0 → (mapWithRect r sw sh pos).2 = 0) ∧
    0 ≤ (mapWithRect r sw sh pos).1 ∧
    (mapWithRect r sw sh pos).1 ≤ (sw : ℚ) ∧
    0 ≤ (mapWithRect r sw sh pos).2 ∧
    (mapWithRect r sw sh pos).2 ≤ (sh : ℚ) := by
  have hswq : (0 : ℚ) ≤ (sw : ℚ) := by exact_mod_cast hsw
  have hshq : (0 : ℚ) ≤ (sh : ℚ) := by exact_mod_cast hsh
  refine ⟨?_, ?_, ?_, ?_, ?_, ?_⟩
  · intro hle
    simp only [mapWithRect, if_neg (not_lt.mpr hle)]
    exact gclamp_zero _ hswq
  · intro hle
    simp only [mapWithRect, if_neg (not_lt.mpr hle)]
    exact gclamp_zero _ hshq
  · exact (gclamp_mem _ _ hswq).1
  · exact (gclamp_mem _ _ hswq).2
  · exact (gclamp_mem _ _ hshq).1
  · exact (gclamp_mem _ _ hshq).2

/-- Evaluation of the letterboxing at the spec scenario: 1920x1080 stream,
square pixels, forced aspect, 800x800 surface gives the 800x450 rectangle
centred vertically at y = 175. -/
lemma fitStream_geomPriv_eval :
    fitStreamToAllocatedSize geomPriv 800 800 = ⟨0, 175, 800, 450⟩ := by
  norm_num [fitStreamToAllocatedSize, gst_video_sink_center_rect, ratTrunc,
    geomPriv, initialState]

/-! ## C6: round-trip of the input mapping at the corners -/

/-- C6: whenever the computed destination rectangle has positive width and
height (and the negotiated stream size is nonnegative), the four corners
of that rectangle map exactly to (0,0), (stream_width,0),
(0,stream_height) and (stream_width,stream_height). -/
theorem map_corners_round_trip (p : QtGLVideoItemPrivate)
    (width height : Int)
    (hw : 0 < (fitStreamToAllocatedSize p width height).w)
    (hh : 0 < (fitStreamToAllocatedSize p width height).h)
    (hsw : 0 ≤ p.v_info.width) (hsh : 0 ≤ p.v_info.height) :
    mapPointToStreamSize p width height
      (((fitStreamToAllocatedSize p width height).x : ℚ),
       ((fitStreamToAllocatedSize p width height).y : ℚ)) = (0, 0) ∧
    mapPointToStreamSize p width height
      (((fitStreamToAllocatedSize p width height).x : ℚ) +
         ((fitStreamToAllocatedSize p width height).w : ℚ),
       ((fitStreamToAllocatedSize p width height).y : ℚ)) =
      ((p.v_info.width : ℚ), 0) ∧
    mapPointToStreamSize p width height
      (((fitStreamToAllocatedSize p width height).x : ℚ),
       ((fitStreamToAllocatedSize p width height).y : ℚ) +
         ((fitStreamToAllocatedSize p width height).h : ℚ)) =
      (0, (p.v_info.height : ℚ)) ∧
    mapPointToStreamSize p width height
      (((fitStreamToAllocatedSize p width height).x : ℚ) +
         ((fitStreamToAllocatedSize p width height).w : ℚ),
       ((fitStreamToAllocatedSize p width height).y : ℚ) +
         ((fitStreamToAllocatedSize p width height).h : ℚ)) =
      ((p.v_info.width : ℚ), (p.v_info.height : ℚ)) := by
  exact mapWithRect_corner_vals (fitStreamToAllocatedSize p width height)
    p.v_info.width p.v_info.height hw hh hsw hsh

/-- Witness for C6 at the 1920x1080 stream on an 800x800 surface: the
destination rectangle is (0, 175, 800, 450) and its corners map back to
the stream corners. -/
theorem map_corners_round_trip_witness :
    (0 < (fitStreamToAllocatedSize geomPriv 800 800).w ∧
     0 < (fitStreamToAllocatedSize geomPriv 800 800).h ∧
     0 ≤ geomPriv.v_info.width ∧ 0 ≤ geomPriv.v_info.height) ∧
    (mapPointToStreamSize geomPriv 800 800
      (((fitStreamToAllocatedSize geomPriv 800 800).x : ℚ),
       ((fitStreamToAllocatedSize geomPriv 800 800).y : ℚ)) = (0, 0) ∧
     mapPointToStreamSize geomPriv 800 800
      (((fitStreamToAllocatedSize geomPriv 800 800).x : ℚ) +
         ((fitStreamToAllocatedSize geomPriv 800 800).w : ℚ),
       ((fitStreamToAllocatedSize geomPriv 800 800).y : ℚ)) =
      ((geomPriv.v_info.width : ℚ), 0) ∧
     mapPointToStreamSize geomPriv 800 800
      (((fitStreamToAllocatedSize geomPriv 800 800).x : ℚ),
       ((fitStreamToAllocatedSize geomPriv 800 800).y : ℚ) +
         ((fitStreamToAllocatedSize geomPriv 800 800).h : ℚ)) =
      (0, (geomPriv.v_info.height : ℚ)) ∧
     mapPointToStreamSize geomPriv 800 800
      (((fitStreamToAllocatedSize geomPriv 800 800).x : ℚ) +
         ((fitStreamToAllocatedSize geomPriv 800 800).w : ℚ),
       ((fitStreamToAllocatedSize geomPriv 800 800).y : ℚ) +
         ((fitStreamToAllocatedSize geomPriv 800 800).h : ℚ)) =
      ((geomPriv.v_info.width : ℚ), (geomPriv.v_info.height : ℚ))) := by
  have hw : 0 < (fitStreamToAllocatedSize geomPriv 800 800).w := by
    rw [fitStream_geomPriv_eval]
    decide
  have hh : 0 < (fitStreamToAllocatedSize geomPriv 800 800).h := by
    rw [fitStream_geomPriv_eval]
    decide
  have hsw : (0 : Int) ≤ geomPriv.v_info.width := by decide
  have hsh : (0 : Int) ≤ geomPriv.v_info.height := by decide
  exact ⟨⟨hw, hh, hsw, hsh⟩,
    map_corners_round_trip geomPriv 800 800 hw hh hsw hsh⟩

/-! ## C10: the point mapping is total and guarded -/

/-- C10: for every input point the mapping is total: a non-positive
rectangle width or height short-circuits the corresponding coordinate to
zero instead of dividing, and the returned point always lies within
the closed stream rectangle. -/
theorem map_point_total_guarded (p : QtGLVideoItemPrivate)
    (width height : Int) (pos : ℚ × ℚ)
    (hsw : 0 ≤ p.v_info.width) (hsh : 0 ≤ p.v_info.height) :
    ((fitStreamToAllocatedSize p width height).w ≤ 0 →
      (mapPointToStreamSize p width height pos).1 = 0) ∧
    ((fitStreamToAllocatedSize p width height).h ≤ 0 →
      (mapPointToStreamSize p width height pos).2 = 0) ∧
    0 ≤ (mapPointToStreamSize p width height pos).1 ∧
    (mapPointToStreamSize p width height pos).1 ≤ (p.v_info.width : ℚ) ∧
    0 ≤ (mapPointToStreamSize p width height pos).2 ∧
    (mapPointToStreamSize p width height pos).2 ≤ (p.v_info.height : ℚ) := by
  exact mapWithRect_bounds (fitStreamToAllocatedSize p width height)
    p.v_info.width p.v_info.height pos hsw hsh

/-- Witness for C10 at a point far outside the destination rectangle. -/
theorem map_point_total_guarded_witness :
    (0 ≤ geomPriv.v_info.width ∧ 0 ≤ geomPriv.v_info.height) ∧
    (((fitStreamToAllocatedSize geomPriv 800 800).w ≤ 0 →
       (mapPointToStreamSize geomPriv 800 800 (12345, -3)).1 = 0) ∧
     ((fitStreamToAllocatedSize geomPriv 800 800).h ≤ 0 →
       (mapPointToStreamSize geomPriv 800 800 (12345, -3)).2 = 0) ∧
     0 ≤ (mapPointToStreamSize geomPriv 800 800 (12345, -3)).1 ∧
     (mapPointToStreamSize geomPriv 800 800 (12345, -3)).1 ≤
       (geomPriv.v_info.width : ℚ) ∧
     0 ≤ (mapPointToStreamSize geomPriv 800 800 (12345, -3)).2 ∧
     (mapPointToStreamSize geomPriv 800 800 (12345, -3)).2 ≤
       (geomPriv.v_info.height : ℚ)) :=
  ⟨⟨by decide, by decide⟩,
   map_point_total_guarded geomPriv 800 800 (12345, -3) (by decide) (by decide)⟩
